import Mathlib

/-!
# Verification of the CommentSense analysis engine

Shallow embedding of the text-analysis and metrics-aggregation engine of the
CommentSense platform (`src/app/page.tsx` — the `CommentAnalyzer` class — and
`src/components/file-upload.tsx`).  JavaScript numbers are modelled as exact
rationals (`ℚ`); `NaN`/`undefined` values flowing through numeric expressions
are modelled with `Option ℚ` (`none` = non-finite/undefined) at the places
where the source can produce them.  JS strings are modelled as `String`, with
`.length` modelled as the number of UTF-16 code units.
-/

/-- ASCII lower-casing of one character, as `String.prototype.toLowerCase`
acts on the ASCII range (all keyword tables are ASCII). -/
def lowerChar (c : Char) : Char :=
  if 'A' ≤ c ∧ c ≤ 'Z' then Char.ofNat (c.toNat + 32) else c

/-- Model of `text.toLowerCase()`. -/
def jsToLower (s : String) : String :=
  String.mk (s.data.map lowerChar)

/-- Boolean prefix test on character lists. -/
def charsPrefix : List Char → List Char → Bool
  | [], _ => true
  | _ :: _, [] => false
  | a :: as, b :: bs => a = b && charsPrefix as bs

/-- Boolean infix (substring) test on character lists. -/
def charsInfix (needle : List Char) : List Char → Bool
  | [] => charsPrefix needle []
  | c :: cs => charsPrefix needle (c :: cs) || charsInfix needle cs

/-- Model of `hay.includes(needle)` for JS strings. -/
def strContains (hay needle : String) : Bool :=
  charsInfix needle.data hay.data

/-- Model of the JS `string.length` (UTF-16 code units: astral code points
count twice). -/
def jsStrLen (s : String) : Nat :=
  (s.data.map (fun c => if c.toNat ≥ 0x10000 then 2 else 1)).sum

/-- JS whitespace test for the characters relevant to `String.prototype.trim`. -/
def isJsWhitespace (c : Char) : Bool :=
  c = ' ' || c = '\t' || c = '\n' || c = '\r' || c = '\x0b' || c = '\x0c'

/-- Model of `s.trim()`. -/
def jsTrim (s : String) : String :=
  String.mk ((s.data.dropWhile isJsWhitespace).reverse.dropWhile isJsWhitespace |>.reverse)

/-- Split a character list at every occurrence of `sep`, keeping empty
pieces (the semantics of the JS one-character `split`). -/
def splitCharsOnChar (sep : Char) : List Char → List (List Char)
  | [] => [[]]
  | c :: cs =>
    match splitCharsOnChar sep cs with
    | [] => if c = sep then [[], []] else [[c]]
    | h :: t => if c = sep then [] :: h :: t else (c :: h) :: t

/-- Model of `s.split(sep)` for a one-character separator (empty pieces are
kept, `"".split(sep)` is `[""]`). -/
def jsSplitChar (sep : Char) (s : String) : List String :=
  (splitCharsOnChar sep s.data).map String.mk

/-- Stable insertion step: place `a` before the first element it compares
`le` to. -/
def jsOrderedInsert (le : α → α → Bool) (a : α) : List α → List α
  | [] => [a]
  | b :: l => if le a b then a :: b :: l else b :: jsOrderedInsert le a l

/-- JS sort (`Array.prototype.sort`) with a consistent comparator is a
stable sort; for a total transitive comparator every stable sort produces
the same output, here given by stable insertion sort. -/
def jsSortBy (le : α → α → Bool) : List α → List α
  | [] => []
  | a :: l => jsOrderedInsert le a (jsSortBy le l)

/-- `SENTIMENT_PATTERNS.positive.strong` from the source. -/
def sentimentPosStrong : List String :=
  ["amazing", "incredible", "fantastic", "outstanding", "exceptional",
   "phenomenal", "brilliant", "perfect", "flawless"]

/-- `SENTIMENT_PATTERNS.positive.moderate` from the source. -/
def sentimentPosModerate : List String :=
  ["good", "great", "nice", "love", "like", "enjoy", "happy", "satisfied",
   "pleased", "recommend"]

/-- `SENTIMENT_PATTERNS.positive.mild` from the source. -/
def sentimentPosMild : List String :=
  ["okay", "fine", "decent", "alright", "not bad", "works", "useful"]

/-- `SENTIMENT_PATTERNS.negative.strong` from the source. -/
def sentimentNegStrong : List String :=
  ["terrible", "awful", "horrible", "disgusting", "worst", "hate", "despise",
   "useless", "trash", "garbage"]

/-- `SENTIMENT_PATTERNS.negative.moderate` from the source. -/
def sentimentNegModerate : List String :=
  ["bad", "poor", "disappointing", "waste", "regret", "annoying",
   "frustrating", "overpriced"]

/-- `SENTIMENT_PATTERNS.negative.mild` from the source. -/
def sentimentNegMild : List String :=
  ["meh", "boring", "bland", "average", "nothing special", "could be better"]

/-- Sentiment labels. -/
inductive Sentiment where
  | positive
  | negative
  | neutral
deriving DecidableEq, Repr

/-- Number of entries of a keyword list present in (already lower-cased)
text; each `forEach` branch of `analyzeSentiment` fires once per list entry
that the text contains. -/
def matchCount (ws : List String) (lowerText : String) : Nat :=
  (ws.filter (fun w => strContains lowerText w)).length

/-- Result of `analyzeSentiment`. -/
structure SentimentResult where
  sentiment : Sentiment
  score : ℚ
deriving DecidableEq, Repr

/-- `CommentAnalyzer.analyzeSentiment` (page.tsx:647-703): per-tier presence
counts weighted +3/+2/+1 and −3/−2/−1, normalized by the match count, clamped
to [−1,1]; label thresholds ±0.5 (applied to the unclamped normalized score,
as in the source). -/
def analyzeSentiment (text : String) : SentimentResult :=
  let lt := jsToLower text
  let m1 := matchCount sentimentPosStrong lt
  let m2 := matchCount sentimentPosModerate lt
  let m3 := matchCount sentimentPosMild lt
  let m4 := matchCount sentimentNegStrong lt
  let m5 := matchCount sentimentNegMild lt
  let m6 := matchCount sentimentNegModerate lt
  let score : ℚ := 3 * m1 + 2 * m2 + m3 - 3 * m4 - 2 * m6 - m5
  let wordCount : Nat := m1 + m2 + m3 + m4 + m6 + m5
  let normalizedScore : ℚ := if wordCount > 0 then score / wordCount else 0
  let sentiment : Sentiment :=
    if normalizedScore > 1/2 then .positive
    else if normalizedScore < -(1/2) then .negative
    else .neutral
  ⟨sentiment, max (-1) (min 1 normalizedScore)⟩

/-- `SPAM_PATTERNS.promotional` from the source. -/
def spamPromotional : List String :=
  ["click here", "visit my", "check out my", "follow me", "subscribe",
   "link in bio", "dm me", "message me"]

/-- `SPAM_PATTERNS.monetary` from the source. -/
def spamMonetary : List String :=
  ["free money", "make money", "earn cash", "get paid", "winner", "prize",
   "lottery", "investment"]

/-- `SPAM_PATTERNS.repetitive` from the source. -/
def spamRepetitive : List String :=
  ["first", "second", "third", "fourth", "fifth"]

/-- `SPAM_PATTERNS.suspicious` from the source. -/
def spamSuspicious : List String :=
  ["bot", "fake", "scam", "virus", "hack", "phishing"]

/-- Membership in the emoji code point ranges of the source's emoji regex. -/
def isEmojiChar (c : Char) : Bool :=
  (0x1F600 ≤ c.toNat && c.toNat ≤ 0x1F64F) ||
  (0x1F300 ≤ c.toNat && c.toNat ≤ 0x1F5FF) ||
  (0x1F680 ≤ c.toNat && c.toNat ≤ 0x1F6FF) ||
  (0x1F1E0 ≤ c.toNat && c.toNat ≤ 0x1F1FF)

/-- Count of emoji characters (the regex has the `u` flag, so it counts whole
code points). -/
def emojiCount (s : String) : Nat :=
  (s.data.filter isEmojiChar).length

/-- Count of the matches of `/[A-Z]/g`. -/
def capsCount (s : String) : Nat :=
  (s.data.filter (fun c => 'A' ≤ c && c ≤ 'Z')).length

/-- Match of the source's `/https?:\/\/|www\./` URL regex (case-sensitive,
applied to the raw text). -/
def hasUrl (s : String) : Bool :=
  strContains s "http://" || strContains s "https://" || strContains s "www."

/-- First-occurrence-preserving deduplication: `[...new Set(xs)]`. -/
def dedupFirst (xs : List String) : List String :=
  xs.foldl (fun acc r => if acc.contains r then acc else acc ++ [r]) []

/-- The additive spam score accumulated by `detectSpam` before clamping
(page.tsx:752-818): each matching pattern adds its family weight, plus the
four heuristic boosts. -/
def spamScoreRaw (text : String) : ℚ :=
  let lowerText := jsToLower text
  (3/10) * matchCount spamPromotional lowerText +
  (4/10) * matchCount spamMonetary lowerText +
  (2/10) * matchCount spamRepetitive lowerText +
  (5/10) * matchCount spamSuspicious lowerText +
  (if jsStrLen text < 10 then 2/10 else 0) +
  (if emojiCount text > 5 then 3/10 else 0) +
  (if (capsCount text : ℚ) / (jsStrLen text : ℚ) > 7/10 ∧ jsStrLen text > 10
    then 2/10 else 0) +
  (if hasUrl text then 3/10 else 0)

/-- Metadata argument of `detectSpam` (unused by its body). -/
structure SpamMeta where
  likeCount : ℚ
  authorId : String

/-- Result of `detectSpam`. -/
structure SpamResult where
  isSpam : Bool
  score : ℚ
  reasons : List String
deriving DecidableEq, Repr

/-- `CommentAnalyzer.detectSpam` (page.tsx:752-825): `isSpam` iff the raw
score strictly exceeds 0.5, reported score clamped by `Math.min(1, ·)`,
reasons de-duplicated preserving first occurrence. -/
def detectSpam (text : String) (metadata : SpamMeta) : SpamResult :=
  let lowerText := jsToLower text
  let _ := metadata
  let reasons : List String :=
    List.replicate (matchCount spamPromotional lowerText) "promotional_content" ++
    List.replicate (matchCount spamMonetary lowerText) "monetary_scheme" ++
    List.replicate (matchCount spamRepetitive lowerText) "repetitive_pattern" ++
    List.replicate (matchCount spamSuspicious lowerText) "suspicious_content" ++
    (if jsStrLen text < 10 then ["too_short"] else []) ++
    (if emojiCount text > 5 then ["excessive_emojis"] else []) ++
    (if (capsCount text : ℚ) / (jsStrLen text : ℚ) > 7/10 ∧ jsStrLen text > 10
      then ["excessive_caps"] else []) ++
    (if hasUrl text then ["contains_url"] else [])
  ⟨spamScoreRaw text > 1/2, min 1 (spamScoreRaw text), dedupFirst reasons⟩

/-- The 4-token comment signature of `detectFileType`
(file-upload.tsx:36). -/
def commentSignature : List String :=
  ["commentid", "textoriginal", "authorid", "videoid"]

/-- The 5-token video signature of `detectFileType`
(file-upload.tsx:37). -/
def videoSignature : List String :=
  ["videoid", "title", "description", "viewcount", "channelid"]

/-- Result type of `detectFileType`. -/
inductive FileType where
  | comments
  | videos
  | unknown
deriving DecidableEq, Repr

/-- Number of signature tokens matching some header, with the source's
bidirectional containment test
`h.includes(header) || header.includes(h)` (file-upload.tsx:39-45). -/
def signatureMatchesBi (sig headers : List String) : Nat :=
  (sig.filter (fun tok =>
    (headers.map jsToLower).any (fun h => strContains h tok || strContains tok h))).length

/-- `detectFileType` (file-upload.tsx:32-54): the comment branch is checked
first, so it wins when both signatures reach 3 matches. -/
def detectFileType (headers : List String) : FileType :=
  if signatureMatchesBi commentSignature headers ≥ 3 then .comments
  else if signatureMatchesBi videoSignature headers ≥ 3 then .videos
  else .unknown

/-- Number of signature tokens that are substrings of some (lower-cased)
header — the one-directional match the claim describes. -/
def signatureMatchesSub (sig headers : List String) : Nat :=
  (sig.filter (fun tok =>
    (headers.map jsToLower).any (fun h => strContains h tok))).length

/-- One category's keyword lists in `CATEGORY_KEYWORDS`. -/
structure CatKeywords where
  primary : List String
  secondary : List String
  negative : List String

/-- `CATEGORY_KEYWORDS` (page.tsx:417-525), in declaration order (which is
the JS object key insertion order). -/
def categoryKeywordsTable : List (String × CatKeywords) :=
  [("skincare",
    ⟨["skin", "skincare", "moisturizer", "cleanser", "serum", "cream",
      "lotion", "acne", "wrinkles", "aging", "hydration", "dry", "oily",
      "sensitive"],
     ["routine", "glow", "texture", "pores", "blackheads", "breakout",
      "dermatologist", "ingredients", "retinol", "hyaluronic", "vitamin c",
      "spf"],
     ["irritation", "reaction", "burning", "stinging", "rash", "allergic"]⟩),
   ("fragrance",
    ⟨["perfume", "fragrance", "scent", "cologne", "eau de toilette",
      "eau de parfum", "smell", "aroma", "notes", "spray"],
     ["floral", "woody", "citrus", "musky", "vanilla", "rose", "jasmine",
      "sandalwood", "bergamot", "lasting", "projection", "sillage"],
     ["overpowering", "synthetic", "cheap", "headache", "cloying"]⟩),
   ("makeup",
    ⟨["makeup", "cosmetics", "foundation", "concealer", "lipstick",
      "eyeshadow", "mascara", "blush", "bronzer", "highlighter"],
     ["coverage", "pigmentation", "blend", "long-lasting", "waterproof",
      "matte", "shimmer", "palette", "brush", "application"],
     ["patchy", "cakey", "streaky", "smudge", "flaky"]⟩),
   ("haircare",
    ⟨["hair", "shampoo", "conditioner", "styling", "treatment", "mask",
      "oil", "serum", "spray", "gel"],
     ["volume", "shine", "frizz", "damage", "repair", "growth", "thickness",
      "curl", "straight", "color", "bleach", "dye"],
     ["greasy", "dry", "brittle", "thinning", "loss", "damage"]⟩)]

/-- Weighted score one category receives in `categorizeComment`
(page.tsx:709-734): +3 per primary, +2 per secondary, +1 per
negative-context keyword present in the lower-cased text. -/
def categoryScore (ck : CatKeywords) (lowerText : String) : Nat :=
  3 * matchCount ck.primary lowerText + 2 * matchCount ck.secondary lowerText +
    matchCount ck.negative lowerText

/-- Result of `categorizeComment`. -/
structure CategoryResult where
  category : String
  confidence : ℚ
deriving DecidableEq, Repr

/-- `CommentAnalyzer.categorizeComment` (page.tsx:705-750): stable descending
sort of the per-category scores (ties keep declaration order), positive
scores only; fallback `general`/0.1; confidence = top score / total score. -/
def categorizeComment (text : String) : CategoryResult :=
  let lt := jsToLower text
  let entries := categoryKeywordsTable.map (fun p => (p.1, categoryScore p.2 lt))
  let sorted := jsSortBy (fun x y => decide (y.2 ≤ x.2)) entries
  match sorted.filter (fun p => decide (0 < p.2)) with
  | [] => ⟨"general", 1/10⟩
  | top :: _ =>
    let totalScore := (entries.map (·.2)).sum
    ⟨top.1, if 0 < totalScore then (top.2 : ℚ) / totalScore else 0⟩

/-- `QUALITY_INDICATORS.positive` from the source. -/
def qualityIndicatorsPositive : List String :=
  ["detailed", "experience", "recommend", "tried", "used", "months", "weeks",
   "results", "improvement", "comparison"]

/-- Split a character list on the characters satisfying `p`; empty pieces
are kept (they are filtered out by every caller, which makes this
equivalent to the source's splitting on `+`-runs of delimiters). -/
def splitCharsOn (p : Char → Bool) : List Char → List (List Char)
  | [] => [[]]
  | c :: cs =>
    match splitCharsOn p cs with
    | [] => if p c then [[], []] else [[c]]
    | h :: t => if p c then [] :: h :: t else (c :: h) :: t

/-- Sentence-delimiter characters of the `/[.!?]+/` split. -/
def isSentenceDelim (c : Char) : Bool :=
  c = '.' || c = '!' || c = '?'

/-- Number of sentences: pieces of the `/[.!?]+/` split whose trim is
non-empty (page.tsx:864, 918). -/
def sentenceCount (text : String) : Nat :=
  ((splitCharsOn isSentenceDelim text.data).filter
    (fun piece => decide ((jsTrim (String.mk piece)).data.length > 0))).length

/-- Number of words: pieces of the `/\s+/` split with positive length
(page.tsx:919). -/
def wordCountWs (text : String) : Nat :=
  ((splitCharsOn isJsWhitespace text.data).filter (fun w => decide (w ≠ []))).length

/-- Vowel mark used by `countSyllables`. -/
def isSylVowel (c : Char) : Bool :=
  c = 'a' || c = 'e' || c = 'i' || c = 'o' || c = 'u' || c = 'y'

/-- Collapse each maximal vowel run to a single `'a'`
(`.replace(/[aeiouy]+/g, "a")`); `prev` records whether the previous kept
character was part of a vowel run. -/
def collapseVowelRuns (prev : Bool) : List Char → List Char
  | [] => []
  | c :: cs =>
    if isSylVowel c then
      if prev then collapseVowelRuns true cs
      else 'a' :: collapseVowelRuns true cs
    else c :: collapseVowelRuns false cs

/-- Drop a trailing `'a'` (`.replace(/a$/, "")`). -/
def dropTrailingA (l : List Char) : List Char :=
  match l.reverse with
  | 'a' :: t => t.reverse
  | _ => l

/-- `CommentAnalyzer.countSyllables` (page.tsx:932-940): lower-case, keep
letters only, collapse vowel runs, drop a trailing vowel mark, count, `|| 1`. -/
def countSyllables (text : String) : Nat :=
  let letters := (jsToLower text).data.filter (fun c => 'a' ≤ c && c ≤ 'z')
  let collapsed := dropTrailingA (collapseVowelRuns false letters)
  if collapsed.length = 0 then 1 else collapsed.length

/-- `CommentAnalyzer.calculateReadability` (page.tsx:917-930): simplified
Flesch score clamped to [0,100] and normalized to [0,1]; 0 when there are no
sentences or no words. -/
def calculateReadability (text : String) : ℚ :=
  let sentences := sentenceCount text
  let words := wordCountWs text
  let syllables := countSyllables text
  if sentences = 0 ∨ words = 0 then 0
  else
    let score : ℚ :=
      206835/1000 - (1015/1000) * ((words : ℚ) / sentences) -
        (846/10) * ((syllables : ℚ) / words)
    max 0 (min 100 score) / 100

/-- Result of `assessQuality`. -/
structure QualityResult where
  isQuality : Bool
  score : ℚ
  factors : List String
deriving DecidableEq, Repr

/-- ASCII model of `charAt(0) === charAt(0).toUpperCase()`; the empty string
satisfies it (`"" === ""`). -/
def firstCharIsUpperInvariant (s : String) : Bool :=
  match s.data with
  | [] => true
  | c :: _ => !('a' ≤ c && c ≤ 'z')

/-- The additive quality score of `assessQuality` (page.tsx:827-875). -/
def qualityScoreRaw (text : String) (likeCount : ℚ) : ℚ :=
  (if jsStrLen text > 50 then 2/10 else 0) +
  (if jsStrLen text > 100 then 1/10 else 0) +
  (if 0 < likeCount then 3/10 else 0) +
  (if 5 < likeCount then 2/10 else 0) +
  (1/10) * matchCount qualityIndicatorsPositive (jsToLower text) +
  (if sentenceCount text > 1 then 1/10 else 0) +
  (if firstCharIsUpperInvariant text then 1/20 else 0)

/-- Metadata argument of `assessQuality`. -/
structure QualityMeta where
  likeCount : ℚ
  publishedAt : String

/-- `CommentAnalyzer.assessQuality` (page.tsx:827-881): clamped by
`Math.min(1, ·)`, `isQuality` iff raw score > 0.4. -/
def assessQuality (text : String) (metadata : QualityMeta) : QualityResult :=
  let raw := qualityScoreRaw text metadata.likeCount
  let factors : List String :=
    (if jsStrLen text > 50 then ["adequate_length"] else []) ++
    (if jsStrLen text > 100 then ["detailed_content"] else []) ++
    (if 0 < metadata.likeCount then ["has_engagement"] else []) ++
    (if 5 < metadata.likeCount then ["high_engagement"] else []) ++
    List.replicate (matchCount qualityIndicatorsPositive (jsToLower text))
      "quality_indicator" ++
    (if sentenceCount text > 1 then ["multiple_sentences"] else []) ++
    (if firstCharIsUpperInvariant text then ["proper_capitalization"] else [])
  ⟨raw > 4/10, min 1 raw, dedupFirst factors⟩

/-- The stop-word set of the analyzer (page.tsx:587-645; the source list
repeats "her", which a JS `Set` absorbs). -/
def stopWordsList : List String :=
  ["the", "a", "an", "and", "or", "but", "in", "on", "at", "to", "for",
   "of", "with", "by", "is", "are", "was", "were", "be", "been", "have",
   "has", "had", "do", "does", "did", "will", "would", "could", "should",
   "may", "might", "must", "can", "this", "that", "these", "those", "i",
   "you", "he", "she", "it", "we", "they", "me", "him", "her", "us", "them",
   "my", "your", "his", "her", "its", "our", "their"]

/-- `\w` (regex word character). -/
def isWordChar (c : Char) : Bool :=
  ('a' ≤ c && c ≤ 'z') || ('A' ≤ c && c ≤ 'Z') || ('0' ≤ c && c ≤ '9') || c = '_'

/-- The filtered token list of `extractKeywords` (page.tsx:884-888):
lower-case, replace every non-word non-space character by a space, split on
whitespace, keep tokens longer than 3 characters that are not stop words. -/
def keywordTokens (text : String) : List String :=
  let replaced := (jsToLower text).data.map
    (fun c => if isWordChar c || isJsWhitespace c then c else ' ')
  ((splitCharsOn isJsWhitespace replaced).map String.mk).filter
    (fun w => decide (w.data.length > 3) && !stopWordsList.contains w)

/-- Key-presence test on an insertion-ordered association list (the JS
`obj[k]` truthiness check; every stored value here is truthy). -/
def hasKeyG [DecidableEq κ] (m : List (κ × β)) (k : κ) : Bool :=
  m.any (fun e => e.1 = k)

/-- Insert into an insertion-ordered counting map (JS object with string
keys): increment if present, else append with count 1. -/
def countUpsert (m : List (String × Nat)) (w : String) : List (String × Nat) :=
  if hasKeyG m w then
    m.map (fun e => if e.1 = w then (e.1, e.2 + 1) else e)
  else m ++ [(w, 1)]

/-- `CommentAnalyzer.extractKeywords` (page.tsx:883-915): category keywords
found as substrings of the text (a `Set`, first-occurrence order) followed by
the top-5 frequent tokens (`count > 1 || length > 5`, stable descending sort
by count), truncated to 8 — with no deduplication across the two sources. -/
def extractKeywords (text : String) (category : String) : List String :=
  let relevantWords : List String :=
    match categoryKeywordsTable.lookup category with
    | none => []
    | some ck =>
      (ck.primary ++ ck.secondary).foldl
        (fun acc kw =>
          if strContains (jsToLower text) kw then
            if acc.contains kw then acc else acc ++ [kw]
          else acc) []
  let wordCounts := (keywordTokens text).foldl countUpsert []
  let frequentWords :=
    ((jsSortBy (fun a b => decide (b.2 ≤ a.2))
      (wordCounts.filter (fun e => decide (e.2 > 1) || decide (e.1.data.length > 5)))).take 5).map
      (·.1)
  (relevantWords ++ frequentWords).take 8

/-- Engagement tier. -/
inductive Tier where
  | high
  | medium
  | low
deriving DecidableEq, Repr

/-- Raw (cleaned) comment as consumed by `analyzeComment`. -/
structure RawComment where
  commentId : String
  textOriginal : String
  authorId : String
  likeCount : ℚ
  publishedAt : String
deriving DecidableEq, Repr

/-- `AnalyzedComment` (the fields produced by `analyzeComment`,
page.tsx:966-989; the video-context fields added by
`analyzeCommentWithVideo` are not needed by any claim and are omitted). -/
structure AnalyzedComment where
  commentId : String
  textOriginal : String
  authorId : String
  likeCount : ℚ
  publishedAt : String
  sentiment : Sentiment
  sentimentScore : ℚ
  category : String
  isSpam : Bool
  spamScore : ℚ
  isQuality : Bool
  qualityScore : ℚ
  relevanceScore : ℚ
  keywords : List String
  entities : List String
  emotions : List String
  toxicity : ℚ
  engagement : Tier
  language : String
  readabilityScore : ℚ
deriving DecidableEq, Repr

/-- `CommentAnalyzer.analyzeComment` (page.tsx:942-990). -/
def analyzeComment (comment : RawComment) : AnalyzedComment :=
  let text := comment.textOriginal
  let sentimentResult := analyzeSentiment text
  let categoryResult := categorizeComment text
  let spamResult := detectSpam text ⟨comment.likeCount, comment.authorId⟩
  let qualityResult := assessQuality text ⟨comment.likeCount, comment.publishedAt⟩
  let keywords := extractKeywords text categoryResult.category
  let readabilityScore := calculateReadability text
  let engagement : Tier :=
    if 10 < comment.likeCount then .high
    else if 2 < comment.likeCount then .medium
    else .low
  let relevanceScore :=
    categoryResult.confidence * (4/10) + qualityResult.score * (3/10) +
      (1 - spamResult.score) * (3/10)
  { commentId := comment.commentId
    textOriginal := text
    authorId := comment.authorId
    likeCount := comment.likeCount
    publishedAt := comment.publishedAt
    sentiment := sentimentResult.sentiment
    sentimentScore := sentimentResult.score
    category := categoryResult.category
    isSpam := spamResult.isSpam
    spamScore := spamResult.score
    isQuality := qualityResult.isQuality
    qualityScore := qualityResult.score
    relevanceScore := relevanceScore
    keywords := keywords
    entities := []
    emotions := []
    toxicity := 0
    engagement := engagement
    language := "en"
    readabilityScore := readabilityScore }

/-- Raw (cleaned) video as consumed by `analyzeVideo`.  Note the cleaned
video still carries `favouriteCount`. -/
structure RawVideo where
  videoId : String
  title : String
  description : String
  channelId : String
  publishedAt : String
  viewCount : ℚ
  likeCount : ℚ
  commentCount : ℚ
  favouriteCount : ℚ
  contentDuration : String
  tags : List String
  topicCategories : List String
deriving DecidableEq, Repr

/-- `AnalyzedVideo` (page.tsx:1020-1041): the object literal built by
`analyzeVideo` — it has NO `favouriteCount` property, which is why the
dynamic access `(v as any).favouriteCount` in `generateMetrics` yields
`undefined`. -/
structure AnalyzedVideo where
  videoId : String
  title : String
  description : String
  channelId : String
  publishedAt : String
  viewCount : ℚ
  likeCount : ℚ
  commentCount : ℚ
  contentDuration : String
  topicCategories : List String
  titleSentiment : Sentiment
  titleSentimentScore : ℚ
  descriptionSentiment : Sentiment
  descriptionSentimentScore : ℚ
  category : String
  keywords : List String
  engagementRate : ℚ
  popularityScore : ℚ
  contentQuality : Tier
deriving DecidableEq, Repr

/-- `CommentAnalyzer.analyzeVideo` (page.tsx:992-1042). -/
def analyzeVideo (video : RawVideo) : AnalyzedVideo :=
  let title := video.title
  let description := video.description
  let titleSentimentResult := analyzeSentiment title
  let descriptionSentimentResult := analyzeSentiment description
  let categoryResult := categorizeComment (title ++ " " ++ description)
  let keywords := extractKeywords (title ++ " " ++ description) categoryResult.category
  let engagementRate : ℚ :=
    if 0 < video.viewCount then video.likeCount / video.viewCount * 100 else 0
  let popularityScore : ℚ :=
    min 100 (video.viewCount / 10000 * (4/10) + video.likeCount / 1000 * (3/10) +
      video.commentCount / 100 * (3/10))
  let contentQuality : Tier :=
    if 5 < engagementRate ∧ 50 < video.commentCount then .high
    else if 2 < engagementRate ∧ 10 < video.commentCount then .medium
    else .low
  { videoId := video.videoId
    title := video.title
    description := video.description
    channelId := video.channelId
    publishedAt := video.publishedAt
    viewCount := video.viewCount
    likeCount := video.likeCount
    commentCount := video.commentCount
    contentDuration := video.contentDuration
    topicCategories := video.topicCategories
    titleSentiment := titleSentimentResult.sentiment
    titleSentimentScore := titleSentimentResult.score
    descriptionSentiment := descriptionSentimentResult.sentiment
    descriptionSentimentScore := descriptionSentimentResult.score
    category := categoryResult.category
    keywords := keywords
    engagementRate := engagementRate
    popularityScore := popularityScore
    contentQuality := contentQuality }

/-- One entry of `topKeywords`. -/
structure KeywordStat where
  keyword : String
  count : Nat
  sentiment : Sentiment
deriving DecidableEq, Repr

/-- One hourly bucket of `engagementTrends`. -/
structure TrendBucket where
  hour : Nat
  comments : Nat
  avgLikes : ℚ
deriving DecidableEq, Repr

/-- One entry of `topPerformingVideos`. -/
structure TopVideo where
  videoId : String
  title : String
  engagementRate : ℚ
deriving DecidableEq, Repr

/-- One entry of `categoryPerformance`. -/
structure CatPerf where
  avgViews : ℚ
  avgEngagement : ℚ
deriving DecidableEq, Repr

/-- The `videoMetrics` block of `AnalysisMetrics`. -/
structure VideoMetricsBlock where
  totalViews : ℚ
  totalLikes : ℚ
  totalFavorites : ℚ
  avgViewCount : ℚ
  avgLikeCount : ℚ
  avgFavoriteCount : ℚ
  avgCommentCount : ℚ
  avgEngagementRate : ℚ
  topPerformingVideos : List TopVideo
  categoryPerformance : List (String × CatPerf)
deriving DecidableEq, Repr

/-- `sentimentDistribution` percentages. -/
structure SentimentDist where
  positive : ℚ
  negative : ℚ
  neutral : ℚ
deriving DecidableEq, Repr

/-- `qualityIndicators` averages. -/
structure QualityIndicatorStats where
  avgLength : ℚ
  avgLikes : ℚ
  avgReadability : ℚ
deriving DecidableEq, Repr

/-- `AnalysisMetrics` (page.tsx:375-406).  The source fields `qualityRatio`
and `spamRatio` are named `qualityRate` and `spamRate` here; JS objects used
as maps become insertion-ordered association lists. -/
structure AnalysisMetrics where
  totalComments : Nat
  totalVideos : Nat
  qualityRate : ℚ
  sentimentDistribution : SentimentDist
  videoMetrics : Option VideoMetricsBlock
  categoryDistribution : List (String × Nat)
  spamRate : ℚ
  averageEngagement : ℚ
  topKeywords : List KeywordStat
  engagementTrends : List TrendBucket
  qualityIndicators : QualityIndicatorStats
deriving DecidableEq, Repr

/-- The dynamic property access `(v as any).favouriteCount`
(page.tsx:1067, 1190): the object built by `analyzeVideo` has no
`favouriteCount` property, so the access yields `undefined` (`none`). -/
def favouriteCountDyn (_ : AnalyzedVideo) : Option ℚ :=
  none

/-- `e || 0` on a JS number that may be `NaN` (`none`): `NaN` and `0` are
falsy, every other number is truthy. -/
def jsTruthyOrZero : Option ℚ → ℚ
  | none => 0
  | some q => if q = 0 then 0 else q

/-- `analyzedVideos.reduce((sum, v) => sum + (v as any).favouriteCount || 0, 0)`
— by operator precedence each step computes `(sum + favouriteCount) || 0`,
and adding `undefined` gives `NaN`. -/
def totalFavoritesOf (vs : List AnalyzedVideo) : ℚ :=
  vs.foldl (fun sum v => jsTruthyOrZero ((favouriteCountDyn v).map (fun f => sum + f))) 0

/-- The accumulator step of the `categoryPerformance` reduce
(page.tsx:1206-1217): per category, running (totalViews, totalEngagement,
count) in key-insertion order. -/
def catPerfFold (acc : List (String × ℚ × ℚ × Nat)) (v : AnalyzedVideo) :
    List (String × ℚ × ℚ × Nat) :=
  if hasKeyG acc v.category then
    acc.map (fun e =>
      if e.1 = v.category then
        (e.1, e.2.1 + v.viewCount, e.2.2.1 + v.engagementRate, e.2.2.2 + 1)
      else e)
  else acc ++ [(v.category, v.viewCount, v.engagementRate, 1)]

/-- The `videoMetrics` computation (page.tsx:1186-1242, duplicated at
1064-1118 for the zero-comment path).  The second component is the content
of the caller's `analyzedVideos` array after the call: `.sort` mutates the
array in place, and the `categoryPerformance` reduce then iterates the
sorted array. -/
def computeVideoMetrics (vs : List AnalyzedVideo) :
    VideoMetricsBlock × List AnalyzedVideo :=
  let n : ℚ := vs.length
  let totalViews := (vs.map (·.viewCount)).sum
  let totalLikes := (vs.map (·.likeCount)).sum
  let totalFavorites := totalFavoritesOf vs
  let sortedVs := jsSortBy (fun a b => decide (b.engagementRate ≤ a.engagementRate)) vs
  let topPerformingVideos :=
    (sortedVs.take 5).map (fun v => TopVideo.mk v.videoId v.title v.engagementRate)
  let categoryPerformance :=
    (sortedVs.foldl catPerfFold []).map (fun e =>
      (e.1, CatPerf.mk (e.2.1 / (e.2.2.2 : ℚ)) (e.2.2.1 / (e.2.2.2 : ℚ))))
  (⟨totalViews, totalLikes, totalFavorites, totalViews / n, totalLikes / n,
    totalFavorites / n, (vs.map (·.commentCount)).sum / n,
    (vs.map (·.engagementRate)).sum / n, topPerformingVideos,
    categoryPerformance⟩, sortedVs)

/-- The keyword-count upsert of `generateMetrics` (page.tsx:1155-1162): a
new keyword is appended with count 1 and the current record's sentiment; an
existing keyword only has its count incremented (first-seen sentiment wins). -/
def kwUpsert (sent : Sentiment) (m : List (String × Nat × Sentiment))
    (kw : String) : List (String × Nat × Sentiment) :=
  if hasKeyG m kw then
    m.map (fun e => if e.1 = kw then (e.1, e.2.1 + 1, e.2.2) else e)
  else m ++ [(kw, 1, sent)]

/-- `keywordCounts` built across all records' keyword lists. -/
def buildKeywordCounts (cs : List AnalyzedComment) :
    List (String × Nat × Sentiment) :=
  cs.foldl (fun m c => c.keywords.foldl (kwUpsert c.sentiment) m) []

/-- The hourly-bucket upsert of `generateMetrics` (page.tsx:1170-1178); the
key is the result of `new Date(publishedAt).getHours()`, with `none`
standing for the `NaN` key an unparseable date produces. -/
def hourUpsert (m : List (Option Nat × Nat × ℚ)) (key : Option Nat)
    (like : ℚ) : List (Option Nat × Nat × ℚ) :=
  if hasKeyG m key then
    m.map (fun e => if e.1 = key then (e.1, e.2.1 + 1, e.2.2 + like) else e)
  else m ++ [(key, 1, like)]

/-- `hourlyData` built from all comments. -/
def buildHourly (getHours : String → Option Nat) (cs : List AnalyzedComment) :
    List (Option Nat × Nat × ℚ) :=
  cs.foldl (fun m c => hourUpsert m (getHours c.publishedAt) c.likeCount) []

/-- The 24 `engagementTrends` buckets (page.tsx:1180-1184). -/
def engagementTrendsOf (getHours : String → Option Nat)
    (cs : List AnalyzedComment) : List TrendBucket :=
  let hourly := buildHourly getHours cs
  (List.range 24).map (fun h =>
    match hourly.lookup (some h) with
    | some d => ⟨h, d.1, d.2 / (d.1 : ℚ)⟩
    | none => ⟨h, 0, 0⟩)

/-- `CommentAnalyzer.generateMetrics` (page.tsx:1060-1265), with the
host-environment hour extraction (`new Date(...).getHours()`) supplied as a
parameter.  Returns the metrics together with the content of the caller's
`analyzedVideos` array after the call (the in-place `.sort` is the only
mutation of the arguments). -/
def generateMetricsFull (getHours : String → Option Nat)
    (analyzedComments : List AnalyzedComment)
    (analyzedVideos : Option (List AnalyzedVideo)) :
    AnalysisMetrics × Option (List AnalyzedVideo) :=
  let total := analyzedComments.length
  let totalVideos := match analyzedVideos with
    | some vs => vs.length
    | none => 0
  let vm : Option (VideoMetricsBlock × List AnalyzedVideo) :=
    match analyzedVideos with
    | some vs => if 0 < vs.length then some (computeVideoMetrics vs) else none
    | none => none
  let post : Option (List AnalyzedVideo) :=
    match analyzedVideos, vm with
    | some _, some p => some p.2
    | some vs, none => some vs
    | none, _ => none
  if total = 0 then
    (⟨0, totalVideos, 0, ⟨0, 0, 0⟩, vm.map (·.1), [], 0, 0, [], [],
      ⟨0, 0, 0⟩⟩, post)
  else
    let posCount := (analyzedComments.filter (fun c => c.sentiment = .positive)).length
    let negCount := (analyzedComments.filter (fun c => c.sentiment = .negative)).length
    let neuCount := (analyzedComments.filter (fun c => c.sentiment = .neutral)).length
    let categoryDistribution :=
      analyzedComments.foldl (fun m c => countUpsert m c.category) []
    let topKeywords :=
      ((jsSortBy (fun a b => decide (b.2.1 ≤ a.2.1))
        (buildKeywordCounts analyzedComments)).take 20).map
        (fun e => KeywordStat.mk e.1 e.2.1 e.2.2)
    (⟨total, totalVideos,
      ((analyzedComments.filter (·.isQuality)).length : ℚ) / total * 100,
      ⟨(posCount : ℚ) / total * 100, (negCount : ℚ) / total * 100,
        (neuCount : ℚ) / total * 100⟩,
      vm.map (·.1), categoryDistribution,
      ((analyzedComments.filter (·.isSpam)).length : ℚ) / total * 100,
      (analyzedComments.map (·.likeCount)).sum / total,
      topKeywords, engagementTrendsOf getHours analyzedComments,
      ⟨(analyzedComments.map (fun c => (jsStrLen c.textOriginal : ℚ))).sum / total,
        (analyzedComments.map (·.likeCount)).sum / total,
        (analyzedComments.map (·.readabilityScore)).sum / total⟩⟩, post)

/-- `generateMetrics` as the caller observes its return value. -/
def generateMetrics (getHours : String → Option Nat)
    (analyzedComments : List AnalyzedComment)
    (analyzedVideos : Option (List AnalyzedVideo)) : AnalysisMetrics :=
  (generateMetricsFull getHours analyzedComments analyzedVideos).1

/-- The quote-aware field splitter `parseCSVLine` (page.tsx:1319-1354):
two-state machine; a doubled quote inside quotes emits one literal quote,
any other quote toggles the state, a separator outside quotes ends the
field.  `current` holds the current field reversed. -/
def parseCSVLineGo (sep : Char) : List Char → Bool → List Char → List String
  | [], _, current => [String.mk current.reverse]
  | '"' :: '"' :: rest2, true, current =>
    parseCSVLineGo sep rest2 true ('"' :: current)
  | '"' :: rest, inQuotes, current =>
    parseCSVLineGo sep rest (!inQuotes) current
  | c :: rest, inQuotes, current =>
    if c = sep ∧ !inQuotes then
      String.mk current.reverse :: parseCSVLineGo sep rest inQuotes []
    else parseCSVLineGo sep rest inQuotes (c :: current)

/-- `CommentAnalyzer.parseCSVLine` on strings. -/
def parseCSVLine (line : String) (sep : Char) : List String :=
  parseCSVLineGo sep line.data false []

/-- JS object field write `row[k] = v`: overwrite if the key exists,
otherwise append. -/
def objSet (m : List (String × String)) (k v : String) : List (String × String) :=
  if hasKeyG m k then
    m.map (fun e => if e.1 = k then (k, v) else e)
  else m ++ [(k, v)]

/-- `CommentAnalyzer.parseCSV` (page.tsx:1267-1317): trims the text, splits
on newline, returns `[]` when fewer than 2 lines remain; picks the separator
(comma first) whose parse of the header case-insensitively substring-matches
the most expected columns (strict improvement only, so earlier separators
win ties); silently drops trimmed-empty lines and lines whose field count
differs from the header's.  The source never throws here. -/
def parseCSV (csvText : String) (expectedColumns : List String) :
    List (List (String × String)) :=
  match jsSplitChar '\x0a' (jsTrim csvText) with
  | [] => []
  | l0 :: rest =>
    if rest.length = 0 then []
    else
      let best := [',', ';', '|', '\t'].foldl
        (fun (b : Char × Nat) sep =>
          let parsedHeader := parseCSVLine l0 sep
          let score := (expectedColumns.filter (fun col =>
            parsedHeader.any (fun h =>
              strContains (jsToLower h) (jsToLower col)))).length
          if b.2 < score then (sep, score) else b) (',', 0)
      let headers := parseCSVLine l0 best.1
      rest.foldl (fun acc line =>
        let t := jsTrim line
        if t = "" then acc
        else
          let values := parseCSVLine t best.1
          if values.length ≠ headers.length then acc
          else acc ++ [(headers.zip values).foldl
            (fun m p => objSet m (jsTrim p.1) (jsTrim p.2)) []]) []

/-- Model of `Number.parseInt` restricted to decimal notation (optional
leading whitespace and sign, then leading digits; `none` is `NaN`).  No
claim depends on the exotic cases (hex prefixes etc.). -/
def jsParseInt (s : String) : Option Int :=
  let cs := s.data.dropWhile isJsWhitespace
  let signAndRest : Int × List Char :=
    match cs with
    | '-' :: t => (-1, t)
    | '+' :: t => (1, t)
    | _ => (1, cs)
  let ds := signAndRest.2.takeWhile (fun c => '0' ≤ c && c ≤ '9')
  if ds = [] then none
  else some (signAndRest.1 *
    (ds.foldl (fun n c => n * 10 + (c.toNat - '0'.toNat)) 0 : Nat))

/-- `Math.max(0, Number.parseInt(x) || 0)` (the `|| 0` turns `NaN` into 0,
which `max` leaves unchanged). -/
def cleanNumeric (s : String) : Int :=
  max 0 ((jsParseInt s).getD 0)

/-- `!s || s.trim() === ""` — the missing/blank test used by the cleaners. -/
def isBlankStr (s : String) : Bool :=
  s = "" || jsTrim s = ""

/-- JS division with `none` for the non-finite results (`0/0` is `NaN`,
`x/0` is `±Infinity`). -/
def jsDivQ (a b : ℚ) : Option ℚ :=
  if b = 0 then none else some (a / b)

/-- One-decimal rounding performed by `.toFixed(1)` (ties modelled as
round-half-up; no claim depends on the tie behavior). -/
def toFixed1 (q : ℚ) : ℚ :=
  round (q * 10) / 10

/-- A comment row as produced by the header-alias mapping in
`parseComments` (page.tsx:1369-1380): all fields still strings. -/
structure CommentRow where
  commentId : String
  channelId : String
  videoId : String
  authorId : String
  textOriginal : String
  parentCommentId : String
  likeCount : String
  publishedAt : String
  updatedAt : String
deriving DecidableEq, Repr

/-- A comment row after `cleanCommentData` mutated it. -/
structure CleanedComment where
  commentId : String
  channelId : String
  videoId : String
  authorId : String
  textOriginal : String
  parentCommentId : String
  likeCount : Int
  publishedAt : String
  updatedAt : String
deriving DecidableEq, Repr

/-- The `stats` object of `cleanCommentData` (page.tsx:1454-1463).
`cleaningRate` is the value formatted by `.toFixed(1)`; `none` models the
non-finite `0/0` (which `.toFixed` renders as the string `"NaN"`). -/
structure CommentCleanStats where
  originalCount : Nat
  cleanedCount : Nat
  removedCount : Int
  nullVideoIds : Nat
  nullCommentIds : Nat
  nullTexts : Nat
  invalidDates : Nat
  cleaningRate : Option ℚ
deriving DecidableEq, Repr

/-- The filter/mutate pass of `cleanCommentData` (page.tsx:1422-1452),
returning (cleaned rows, nullVideoIds, nullCommentIds, nullTexts,
invalidDates).  The host date parser (`new Date` plus the year > 2005
condition of `isValidDate`) is the parameter `validDate`. -/
def cleanCommentsRec (validDate : String → Bool) :
    List CommentRow → List CleanedComment × Nat × Nat × Nat × Nat
  | [] => ([], 0, 0, 0, 0)
  | r :: rs =>
    let rec0 := cleanCommentsRec validDate rs
    if isBlankStr r.videoId then
      (rec0.1, rec0.2.1 + 1, rec0.2.2.1, rec0.2.2.2.1, rec0.2.2.2.2)
    else if isBlankStr r.commentId then
      (rec0.1, rec0.2.1, rec0.2.2.1 + 1, rec0.2.2.2.1, rec0.2.2.2.2)
    else if isBlankStr r.textOriginal then
      (rec0.1, rec0.2.1, rec0.2.2.1, rec0.2.2.2.1 + 1, rec0.2.2.2.2)
    else
      let badDate := r.publishedAt ≠ "" ∧ validDate r.publishedAt = false
      let cleaned : CleanedComment :=
        { commentId := r.commentId
          channelId := r.channelId
          videoId := r.videoId
          authorId := if r.authorId = "" then "unknown" else r.authorId
          textOriginal := jsTrim r.textOriginal
          parentCommentId := r.parentCommentId
          likeCount := cleanNumeric r.likeCount
          publishedAt := if badDate then "" else r.publishedAt
          updatedAt := r.updatedAt }
      (cleaned :: rec0.1, rec0.2.1, rec0.2.2.1, rec0.2.2.2.1,
        rec0.2.2.2.2 + if badDate then 1 else 0)

/-- `CommentAnalyzer.cleanCommentData` (page.tsx:1415-1466). -/
def cleanCommentData (validDate : String → Bool) (comments : List CommentRow) :
    List CleanedComment × CommentCleanStats :=
  let r := cleanCommentsRec validDate comments
  let orig := comments.length
  (r.1,
   { originalCount := orig
     cleanedCount := r.1.length
     removedCount := (orig : Int) - r.1.length
     nullVideoIds := r.2.1
     nullCommentIds := r.2.2.1
     nullTexts := r.2.2.2.1
     invalidDates := r.2.2.2.2
     cleaningRate :=
       (jsDivQ ((orig : ℚ) - r.1.length) orig).map (fun q => toFixed1 (q * 100)) })

/-- A video row as produced by the header-alias mapping in `parseVideos`
(page.tsx:1392-1408): all fields still strings. -/
structure VideoRow where
  videoId : String
  publishedAt : String
  channelId : String
  title : String
  description : String
  tags : String
  defaultLanguage : String
  defaultAudioLanguage : String
  contentDuration : String
  viewCount : String
  likeCount : String
  favouriteCount : String
  commentCount : String
  topicCategories : String
deriving DecidableEq, Repr

/-- A video row after `cleanVideoData` mutated it. -/
structure CleanedVideo where
  videoId : String
  publishedAt : String
  channelId : String
  title : String
  description : String
  tags : List String
  defaultLanguage : String
  defaultAudioLanguage : String
  contentDuration : String
  viewCount : Int
  likeCount : Int
  favouriteCount : Int
  commentCount : Int
  topicCategories : List String
deriving DecidableEq, Repr

/-- The `stats` object of `cleanVideoData` (page.tsx:1526-1535). -/
structure VideoCleanStats where
  originalCount : Nat
  cleanedCount : Nat
  removedCount : Int
  nullVideoIds : Nat
  nullTitles : Nat
  invalidDates : Nat
  invalidMetrics : Nat
  cleaningRate : Option ℚ
deriving DecidableEq, Repr

/-- `.split("|").filter(t => t.trim()).map(t => t.trim())`. -/
def splitPipeList (s : String) : List String :=
  ((jsSplitChar '|' s).filter (fun t => jsTrim t ≠ "")).map jsTrim

/-- The filter/mutate pass of `cleanVideoData` (page.tsx:1475-1524),
returning (cleaned rows, nullVideoIds, nullTitles, invalidDates,
invalidMetrics). -/
def cleanVideosRec (validDate : String → Bool) :
    List VideoRow → List CleanedVideo × Nat × Nat × Nat × Nat
  | [] => ([], 0, 0, 0, 0)
  | r :: rs =>
    let rec0 := cleanVideosRec validDate rs
    if isBlankStr r.videoId then
      (rec0.1, rec0.2.1 + 1, rec0.2.2.1, rec0.2.2.2.1, rec0.2.2.2.2)
    else if isBlankStr r.title then
      (rec0.1, rec0.2.1, rec0.2.2.1 + 1, rec0.2.2.2.1, rec0.2.2.2.2)
    else
      let badDate := r.publishedAt ≠ "" ∧ validDate r.publishedAt = false
      let viewCountClean := cleanNumeric r.viewCount
      let badMetric := r.viewCount ≠ "" ∧ viewCountClean = 0
      let cleaned : CleanedVideo :=
        { videoId := r.videoId
          publishedAt := if badDate then "" else r.publishedAt
          channelId := r.channelId
          title := jsTrim r.title
          description := r.description
          tags := splitPipeList r.tags
          defaultLanguage := if r.defaultLanguage = "" then "en" else r.defaultLanguage
          defaultAudioLanguage := r.defaultAudioLanguage
          contentDuration := r.contentDuration
          viewCount := viewCountClean
          likeCount := cleanNumeric r.likeCount
          favouriteCount := cleanNumeric r.favouriteCount
          commentCount := cleanNumeric r.commentCount
          topicCategories := splitPipeList r.topicCategories }
      (cleaned :: rec0.1, rec0.2.1, rec0.2.2.1,
        rec0.2.2.2.1 + if badDate then 1 else 0,
        rec0.2.2.2.2 + if badMetric then 1 else 0)

/-- `CommentAnalyzer.cleanVideoData` (page.tsx:1468-1538). -/
def cleanVideoData (validDate : String → Bool) (videos : List VideoRow) :
    List CleanedVideo × VideoCleanStats :=
  let r := cleanVideosRec validDate videos
  let orig := videos.length
  (r.1,
   { originalCount := orig
     cleanedCount := r.1.length
     removedCount := (orig : Int) - r.1.length
     nullVideoIds := r.2.1
     nullTitles := r.2.2.1
     invalidDates := r.2.2.2.1
     invalidMetrics := r.2.2.2.2
     cleaningRate :=
       (jsDivQ ((orig : ℚ) - r.1.length) orig).map (fun q => toFixed1 (q * 100)) })

/-- A cleaned raw video whose `favouriteCount` survived cleaning as 7. -/
def favVideo : RawVideo :=
  ⟨"v1", "a", "", "", "", 100, 5, 1, 7, "", [], []⟩

/-- A first analyzed-video literal for the C10 witness (engagement rate 1). -/
def vidA : AnalyzedVideo :=
  ⟨"vA", "tA", "", "", "", 0, 0, 0, "", [], .neutral, 0, .neutral, 0,
   "general", [], 1, 0, .low⟩

/-- A second analyzed-video literal for the C10 witness (engagement rate 2). -/
def vidB : AnalyzedVideo :=
  ⟨"vB", "tB", "", "", "", 0, 0, 0, "", [], .neutral, 0, .neutral, 0,
   "general", [], 2, 0, .low⟩

/-- The flattened (keyword, record-sentiment) event stream the
`keywordCounts` double loop iterates over. -/
def kwEvents (cs : List AnalyzedComment) : List (String × Sentiment) :=
  (cs.map (fun c => c.keywords.map (fun k => (k, c.sentiment)))).flatten

/-- Number of events for a given keyword. -/
def eventsCount (kw : String) (es : List (String × Sentiment)) : Nat :=
  (es.filter (fun e => decide (e.1 = kw))).length

/-- Sentiment of the first event for a given keyword. -/
def eventsFirst (kw : String) (es : List (String × Sentiment)) : Option Sentiment :=
  (es.find? (fun e => decide (e.1 = kw))).map (·.2)

/-- Total occurrences of a keyword across all records' keyword lists
(counting repetitions inside one record). -/
def keywordOccurrences (kw : String) (cs : List AnalyzedComment) : Nat :=
  (cs.map (fun c => c.keywords.count kw)).sum

/-- Sentiment of the first record (in input order) whose keyword list
contains the keyword. -/
def firstIntroducerSentiment (kw : String) (cs : List AnalyzedComment) :
    Option Sentiment :=
  (cs.find? (fun c => c.keywords.contains kw)).map (·.sentiment)

/-- Invariant of the `keywordCounts` accumulator after processing events
`es`: each stored entry carries the event count and first-event sentiment of
its keyword, every seen keyword is stored, and keys are unique. -/
def KwInv (m : List (String × Nat × Sentiment)) (es : List (String × Sentiment)) : Prop :=
  (∀ p ∈ m, p.2.1 = eventsCount p.1 es ∧ eventsFirst p.1 es = some p.2.2) ∧
  (∀ kw, eventsCount kw es ≠ 0 → hasKeyG m kw = true) ∧
  (m.map (·.1)).Nodup

/-- The analyzed comment used as concrete input for the keyword-count
claims: its text yields the duplicated keyword list
`["skin", "skincare", "skincare"]`. -/
def rawCommentEx : RawComment :=
  ⟨"c1", "love skincare", "a", 0, ""⟩

/-- C7: one strong-positive match and nothing else gives score 1, label
positive; one strong-positive plus one strong-negative and nothing else
gives score 0, label neutral. -/
theorem analyzeSentiment_boundary (t u : String)
    (ht1 : matchCount sentimentPosStrong (jsToLower t) = 1)
    (ht2 : matchCount sentimentPosModerate (jsToLower t) = 0)
    (ht3 : matchCount sentimentPosMild (jsToLower t) = 0)
    (ht4 : matchCount sentimentNegStrong (jsToLower t) = 0)
    (ht5 : matchCount sentimentNegModerate (jsToLower t) = 0)
    (ht6 : matchCount sentimentNegMild (jsToLower t) = 0)
    (hu1 : matchCount sentimentPosStrong (jsToLower u) = 1)
    (hu2 : matchCount sentimentPosModerate (jsToLower u) = 0)
    (hu3 : matchCount sentimentPosMild (jsToLower u) = 0)
    (hu4 : matchCount sentimentNegStrong (jsToLower u) = 1)
    (hu5 : matchCount sentimentNegModerate (jsToLower u) = 0)
    (hu6 : matchCount sentimentNegMild (jsToLower u) = 0) :
    analyzeSentiment t = ⟨.positive, 1⟩ ∧ analyzeSentiment u = ⟨.neutral, 0⟩ := by
  constructor
  · simp only [analyzeSentiment, ht1, ht2, ht3, ht4, ht5, ht6]
    norm_num
  · simp only [analyzeSentiment, hu1, hu2, hu3, hu4, hu5, hu6]
    norm_num

/-- Witness for C7: `"amazing"` matches exactly the strong-positive entry
`"amazing"`, and `"amazing trash"` additionally matches exactly the
strong-negative entry `"trash"`. -/
theorem analyzeSentiment_boundary_witness :
    analyzeSentiment "amazing" = ⟨.positive, 1⟩ ∧
      analyzeSentiment "amazing trash" = ⟨.neutral, 0⟩ :=
  analyzeSentiment_boundary "amazing" "amazing trash"
    (by decide) (by decide) (by decide) (by decide) (by decide) (by decide)
    (by decide) (by decide) (by decide) (by decide) (by decide) (by decide)

/-- The raw spam score is a sum of non-negative contributions. -/
theorem spamScoreRaw_nonneg (text : String) : 0 ≤ spamScoreRaw text := by
  unfold spamScoreRaw
  have h1 : (0:ℚ) ≤ (3/10) * matchCount spamPromotional (jsToLower text) := by positivity
  have h2 : (0:ℚ) ≤ (4/10) * matchCount spamMonetary (jsToLower text) := by positivity
  have h3 : (0:ℚ) ≤ (2/10) * matchCount spamRepetitive (jsToLower text) := by positivity
  have h4 : (0:ℚ) ≤ (5/10) * matchCount spamSuspicious (jsToLower text) := by positivity
  have h5 : (0:ℚ) ≤ (if jsStrLen text < 10 then (2:ℚ)/10 else 0) := by positivity
  have h6 : (0:ℚ) ≤ (if emojiCount text > 5 then (3:ℚ)/10 else 0) := by positivity
  have h7 : (0:ℚ) ≤ (if (capsCount text : ℚ) / (jsStrLen text : ℚ) > 7/10 ∧
      jsStrLen text > 10 then (2:ℚ)/10 else 0) := by positivity
  have h8 : (0:ℚ) ≤ (if hasUrl text then (3:ℚ)/10 else 0) := by positivity
  linarith

/-- C8: the reported spam score always lies in [0,1], and `isSpam` holds
exactly when the reported score strictly exceeds 0.5 (so a score of exactly
0.5 is not spam, and saturating every pattern family still caps at 1). -/
theorem detectSpam_score_bounds (text : String) (metadata : SpamMeta) :
    0 ≤ (detectSpam text metadata).score ∧ (detectSpam text metadata).score ≤ 1 ∧
      ((detectSpam text metadata).isSpam = true ↔
        (detectSpam text metadata).score > 1/2) := by
  have hnn := spamScoreRaw_nonneg text
  refine ⟨?_, ?_, ?_⟩
  · show (0:ℚ) ≤ min 1 (spamScoreRaw text)
    exact le_min (by norm_num) hnn
  · show min 1 (spamScoreRaw text) ≤ 1
    exact min_le_left _ _
  · show (decide (spamScoreRaw text > 1/2) = true) ↔ min 1 (spamScoreRaw text) > 1/2
    rw [decide_eq_true_eq]
    constructor
    · intro h
      exact lt_min (by norm_num) h
    · intro h
      exact lt_of_lt_of_le h (min_le_right _ _)

/-- Counterexample to C2 as stated: (a) for the single header `"id"` no
comment-signature token is a substring of any header, yet `detectFileType`
returns `comments` (the source's containment test is bidirectional); (b) for
a header list containing both full signatures, both signatures reach 3
matches, yet the result is `comments`, not `unknown` (the comment branch is
checked first). -/
theorem detectFileType_counterexample :
    detectFileType ["id"] = .comments ∧
      signatureMatchesSub commentSignature ["id"] = 0 ∧
      detectFileType ["commentId", "textOriginal", "authorId", "videoId",
        "title", "description", "viewCount", "channelId"] = .comments ∧
      signatureMatchesBi commentSignature ["commentId", "textOriginal",
        "authorId", "videoId", "title", "description", "viewCount",
        "channelId"] ≥ 3 ∧
      signatureMatchesBi videoSignature ["commentId", "textOriginal",
        "authorId", "videoId", "title", "description", "viewCount",
        "channelId"] ≥ 3 := by
  refine ⟨by decide, by decide, by decide, by decide, by decide⟩

/-- C2 amended: `detectFileType` returns `comments` iff at least 3
comment-signature tokens match some header under bidirectional containment;
`videos` iff the comment count falls short of 3 while at least 3
video-signature tokens so match; `unknown` iff neither signature reaches 3. -/
theorem detectFileType_characterization (headers : List String) :
    (detectFileType headers = .comments ↔
      signatureMatchesBi commentSignature headers ≥ 3) ∧
    (detectFileType headers = .videos ↔
      (signatureMatchesBi commentSignature headers < 3 ∧
        signatureMatchesBi videoSignature headers ≥ 3)) ∧
    (detectFileType headers = .unknown ↔
      (signatureMatchesBi commentSignature headers < 3 ∧
        signatureMatchesBi videoSignature headers < 3)) := by
  unfold detectFileType
  rcases Nat.lt_or_ge (signatureMatchesBi commentSignature headers) 3 with hc | hc
  · rcases Nat.lt_or_ge (signatureMatchesBi videoSignature headers) 3 with hv | hv
    · simp [Nat.not_le.mpr hc, Nat.not_le.mpr hv, hc, hv]
    · simp [Nat.not_le.mpr hc, hv, hc]
  · simp [hc, Nat.not_lt.mpr hc]

/-- Counterexample to C1 as stated: for `generateMetrics([], [])` the
zero-comment early return (page.tsx:1121-1134) sets `engagementTrends: []`,
an empty array rather than the claimed 24 all-zero hourly buckets. -/
theorem generateMetrics_empty_trends_counterexample :
    (generateMetrics (fun _ => none) [] (some [])).engagementTrends = [] := by
  rfl

/-- C1 amended: `generateMetrics([], [])` returns totals, every
ratio/percentage field and the quality indicators all 0 (all finite),
`topKeywords = []`, no video block, and an **empty** `engagementTrends`
array (0 buckets, not 24). -/
theorem generateMetrics_empty_inputs (getHours : String → Option Nat) :
    generateMetrics getHours [] (some []) =
      ⟨0, 0, 0, ⟨0, 0, 0⟩, none, [], 0, 0, [], [], ⟨0, 0, 0⟩⟩ := by
  rfl

/-- Counterexample to C3 as stated: on a one-line input the parse operation
returns a value (the empty row list); the source (page.tsx:1267-1269)
contains no throw, so no `EmptyInputError` (or any error) is ever raised. -/
theorem parseCSV_short_returns_counterexample :
    parseCSV "abc" ["commentId"] = [] := by
  rfl

/-- C3 amended: whenever fewer than 2 lines remain after trimming (which,
because `trim` strips outer whitespace, is exactly the "fewer than 2
non-empty lines" condition), `parseCSV` returns the empty list instead of
failing. -/
theorem parseCSV_short_input (text : String) (cols : List String)
    (h : (jsSplitChar '\x0a' (jsTrim text)).length < 2) :
    parseCSV text cols = [] := by
  rw [parseCSV]
  split
  · rfl
  · next l0 rest heq =>
    rw [heq] at h
    have hr : rest.length = 0 := by
      simp only [List.length_cons] at h
      omega
    simp [hr]

/-- Witness for C3's amended theorem at the concrete input `"abc"`. -/
theorem parseCSV_short_input_witness :
    (jsSplitChar '\x0a' (jsTrim "abc")).length < 2 ∧
      parseCSV "abc" ["commentId"] = [] :=
  ⟨by decide, parseCSV_short_input "abc" ["commentId"] (by decide)⟩

/-- C4 (code bug): on an empty input list `originalCount` is 0 and the
unguarded `((original − cleaned) / original * 100).toFixed(1)` divides 0 by
0, so the reported cleaning rate is the non-finite `NaN` (`none`), not the
0 the specification requires — in both cleaners. -/
theorem cleaningRate_nan_on_empty (validDate : String → Bool) :
    (cleanCommentData validDate []).2.cleaningRate = none ∧
      (cleanVideoData validDate []).2.cleaningRate = none := by
  constructor
  · simp [cleanCommentData, cleanCommentsRec, jsDivQ]
  · simp [cleanVideoData, cleanVideosRec, jsDivQ]

/-- For non-empty inputs the cleaning rate is the guarded, finite value
`removed/original × 100` to one decimal place — the part of C4 the code does
satisfy. -/
theorem cleaningRate_finite_on_nonempty (validDate : String → Bool)
    (rows : List CommentRow) (h : rows ≠ []) :
    (cleanCommentData validDate rows).2.cleaningRate =
      some (toFixed1 ((((rows.length : ℚ) -
        (cleanCommentData validDate rows).1.length) / rows.length) * 100)) := by
  have hlen : rows.length ≠ 0 := fun hc => h (List.length_eq_zero.mp hc)
  have hq : ((rows.length : ℚ)) ≠ 0 := Nat.cast_ne_zero.mpr hlen
  simp [cleanCommentData, jsDivQ, hq]

/-- Witness for `cleaningRate_finite_on_nonempty` on a concrete two-row
input (one row dropped, rate 50.0). -/
theorem cleaningRate_finite_on_nonempty_witness :
    ([⟨"c1", "ch", "v1", "a", "hi", "", "5", "", ""⟩,
      ⟨"", "", "", "a", "t", "", "0", "", ""⟩] : List CommentRow) ≠ [] ∧
    (cleanCommentData (fun _ => true)
      [⟨"c1", "ch", "v1", "a", "hi", "", "5", "", ""⟩,
       ⟨"", "", "", "a", "t", "", "0", "", ""⟩]).2.cleaningRate =
      some (toFixed1 (((((2 : Nat) : ℚ) -
        (cleanCommentData (fun _ => true)
          [⟨"c1", "ch", "v1", "a", "hi", "", "5", "", ""⟩,
           ⟨"", "", "", "a", "t", "", "0", "", ""⟩]).1.length) / ((2 : Nat) : ℚ)) * 100)) :=
  ⟨by decide, cleaningRate_finite_on_nonempty (fun _ => true) _ (by decide)⟩

/-- `totalFavorites` always collapses to 0: every `AnalyzedVideo` lacks a
`favouriteCount` property, so each reduce step computes
`(sum + undefined) || 0 = NaN || 0 = 0`. -/
theorem totalFavoritesOf_eq_zero (vs : List AnalyzedVideo) :
    totalFavoritesOf vs = 0 := by
  have hstep : ∀ (q : ℚ) (v : AnalyzedVideo),
      jsTruthyOrZero ((favouriteCountDyn v).map (fun f => q + f)) = 0 := by
    intro q v
    rfl
  unfold totalFavoritesOf
  induction vs with
  | nil => rfl
  | cons v vs ih =>
    rw [List.foldl_cons, hstep]
    exact ih

/-- C5 (code bug): `videoMetrics.totalFavorites` is 0 for every video list —
in particular for a video whose upstream cleaned `favouriteCount` is 7 the
code reports `totalFavorites = 0` and `avgFavoriteCount = 0` instead of the
specified sum 7 and average 7/1, because `analyzeVideo` drops
`favouriteCount` and the reduce's `sum + (v as any).favouriteCount || 0`
then yields 0 at every step. -/
theorem totalFavorites_always_zero :
    (∀ vs : List AnalyzedVideo, totalFavoritesOf vs = 0) ∧
    ((generateMetrics (fun _ => none) [] (some [analyzeVideo favVideo])).videoMetrics).map
        (fun vm => (vm.totalFavorites, vm.avgFavoriteCount)) = some (0, 0) ∧
    favVideo.favouriteCount = 7 := by
  refine ⟨totalFavoritesOf_eq_zero, ?_, rfl⟩
  have hv : (generateMetrics (fun _ => none) [] (some [analyzeVideo favVideo])).videoMetrics =
      some (computeVideoMetrics [analyzeVideo favVideo]).1 := rfl
  rw [hv]
  simp only [computeVideoMetrics, Option.map_some, totalFavoritesOf_eq_zero]
  norm_num

/-- Row-count bookkeeping of the comment cleaner: kept rows plus the three
drop counters account for every input row (each dropped row increments
exactly one counter). -/
theorem cleanCommentsRec_count (validDate : String → Bool)
    (rows : List CommentRow) :
    (cleanCommentsRec validDate rows).1.length +
      ((cleanCommentsRec validDate rows).2.1 +
        (cleanCommentsRec validDate rows).2.2.1 +
        (cleanCommentsRec validDate rows).2.2.2.1) = rows.length := by
  induction rows with
  | nil => rfl
  | cons r rs ih =>
    simp only [cleanCommentsRec]
    split_ifs <;> simp only [List.length_cons] <;> omega

/-- Row-count bookkeeping of the video cleaner. -/
theorem cleanVideosRec_count (validDate : String → Bool)
    (rows : List VideoRow) :
    (cleanVideosRec validDate rows).1.length +
      ((cleanVideosRec validDate rows).2.1 +
        (cleanVideosRec validDate rows).2.2.1) = rows.length := by
  induction rows with
  | nil => rfl
  | cons r rs ih =>
    simp only [cleanVideosRec]
    split_ifs <;> simp only [List.length_cons] <;> omega

/-- C9: for both cleaners, `cleaned.length + removedCount = originalCount`
and `removedCount` equals the sum of the per-reason drop counters
(`nullVideoIds + nullCommentIds + nullTexts` for comments,
`nullVideoIds + nullTitles` for videos) — no double counting. -/
theorem cleaning_row_count_invariant (validDate : String → Bool)
    (rows : List CommentRow) (vrows : List VideoRow) :
    (((cleanCommentData validDate rows).1.length : Int) +
        (cleanCommentData validDate rows).2.removedCount =
        (cleanCommentData validDate rows).2.originalCount ∧
      (cleanCommentData validDate rows).2.removedCount =
        (cleanCommentData validDate rows).2.nullVideoIds +
          (cleanCommentData validDate rows).2.nullCommentIds +
          (cleanCommentData validDate rows).2.nullTexts) ∧
    (((cleanVideoData validDate vrows).1.length : Int) +
        (cleanVideoData validDate vrows).2.removedCount =
        (cleanVideoData validDate vrows).2.originalCount ∧
      (cleanVideoData validDate vrows).2.removedCount =
        (cleanVideoData validDate vrows).2.nullVideoIds +
          (cleanVideoData validDate vrows).2.nullTitles) := by
  have hc := cleanCommentsRec_count validDate rows
  have hv := cleanVideosRec_count validDate vrows
  refine ⟨⟨?_, ?_⟩, ⟨?_, ?_⟩⟩ <;>
    simp only [cleanCommentData, cleanVideoData] <;> omega

/-- Inserting with `jsOrderedInsert` permutes to consing. -/
theorem jsOrderedInsert_perm (le : α → α → Bool) (a : α) (l : List α) :
    (jsOrderedInsert le a l).Perm (a :: l) := by
  induction l with
  | nil => exact List.Perm.refl _
  | cons b t ih =>
    simp only [jsOrderedInsert]
    split
    · exact List.Perm.refl _
    · exact (ih.cons b).trans (List.Perm.swap a b t)

/-- `jsSortBy` permutes its input. -/
theorem jsSortBy_perm (le : α → α → Bool) (l : List α) :
    (jsSortBy le l).Perm l := by
  induction l with
  | nil => exact List.Perm.refl _
  | cons a t ih =>
    exact (jsOrderedInsert_perm le a (jsSortBy le t)).trans (ih.cons a)

/-- `jsOrderedInsert` preserves sortedness for a total transitive Boolean
comparator. -/
theorem jsOrderedInsert_pairwise (le : α → α → Bool)
    (htrans : ∀ x y z, le x y = true → le y z = true → le x z = true)
    (htotal : ∀ x y, le x y = true ∨ le y x = true) (a : α) (l : List α)
    (h : l.Pairwise (fun x y => le x y = true)) :
    (jsOrderedInsert le a l).Pairwise (fun x y => le x y = true) := by
  induction l with
  | nil => simp [jsOrderedInsert]
  | cons b t ih =>
    rcases List.pairwise_cons.mp h with ⟨hb, ht⟩
    simp only [jsOrderedInsert]
    split
    · next hab =>
      refine List.pairwise_cons.mpr ⟨?_, h⟩
      intro x hx
      rcases List.mem_cons.mp hx with hxb | hxt
      · exact hxb ▸ hab
      · exact htrans a b x hab (hb x hxt)
    · next hab =>
      have hba : le b a = true := (htotal a b).resolve_left hab
      refine List.pairwise_cons.mpr ⟨?_, ih ht⟩
      intro x hx
      rcases List.mem_cons.mp ((jsOrderedInsert_perm le a t).mem_iff.mp hx) with hxa | hxt
      · exact hxa ▸ hba
      · exact hb x hxt

/-- `jsSortBy` sorts, for a total transitive Boolean comparator. -/
theorem jsSortBy_pairwise (le : α → α → Bool)
    (htrans : ∀ x y z, le x y = true → le y z = true → le x z = true)
    (htotal : ∀ x y, le x y = true ∨ le y x = true) (l : List α) :
    (jsSortBy le l).Pairwise (fun x y => le x y = true) := by
  induction l with
  | nil => exact List.Pairwise.nil
  | cons a t ih => exact jsOrderedInsert_pairwise le htrans htotal a _ ih

/-- C10: `generateMetrics` sorts a non-empty `analyzedVideos` argument in
place — after the call the caller's array is a permutation of its old
content in descending `engagementRate` order, the records themselves
unchanged (the permutation is of the original records). -/
theorem generateMetrics_sorts_videos_argument (getHours : String → Option Nat)
    (cs : List AnalyzedComment) (vs : List AnalyzedVideo) (h : vs ≠ []) :
    ∃ l, (generateMetricsFull getHours cs (some vs)).2 = some l ∧
      l.Perm vs ∧ l.Pairwise (fun a b => b.engagementRate ≤ a.engagementRate) := by
  have hlen : 0 < vs.length := List.length_pos.mpr h
  refine ⟨jsSortBy (fun a b => decide (b.engagementRate ≤ a.engagementRate)) vs,
    ?_, jsSortBy_perm _ vs, ?_⟩
  · have hvm : (if 0 < vs.length then some (computeVideoMetrics vs) else none) =
        some (computeVideoMetrics vs) := if_pos hlen
    simp only [generateMetricsFull, hvm, apply_ite Prod.snd, ite_self]
    rfl
  · have hp := jsSortBy_pairwise
      (fun a b : AnalyzedVideo => decide (b.engagementRate ≤ a.engagementRate))
      (fun x y z hxy hyz => by
        simp only [decide_eq_true_eq] at *
        exact le_trans hyz hxy)
      (fun x y => by
        simp only [decide_eq_true_eq]
        exact le_total y.engagementRate x.engagementRate) vs
    exact hp.imp (fun hxy => of_decide_eq_true hxy)

/-- Witness for C10 at the concrete two-video input. -/
theorem generateMetrics_sorts_videos_argument_witness :
    ([vidA, vidB] : List AnalyzedVideo) ≠ [] ∧
      ∃ l, (generateMetricsFull (fun _ => none) [] (some [vidA, vidB])).2 = some l ∧
        l.Perm [vidA, vidB] ∧
        l.Pairwise (fun a b => b.engagementRate ≤ a.engagementRate) :=
  ⟨List.cons_ne_nil _ _,
    generateMetrics_sorts_videos_argument (fun _ => none) [] [vidA, vidB]
      (List.cons_ne_nil _ _)⟩

theorem hasKeyG_iff [DecidableEq κ] (m : List (κ × β)) (k : κ) :
    hasKeyG m k = true ↔ ∃ p ∈ m, p.1 = k := by
  simp [hasKeyG, List.any_eq_true]

theorem eventsCount_append (kw : String) (a b : List (String × Sentiment)) :
    eventsCount kw (a ++ b) = eventsCount kw a + eventsCount kw b := by
  simp [eventsCount, List.filter_append]

theorem eventsCount_singleton (kw k : String) (s : Sentiment) :
    eventsCount kw [(k, s)] = if k = kw then 1 else 0 := by
  by_cases h : k = kw <;> simp [eventsCount, List.filter, h]

theorem eventsFirst_append (kw : String) (a b : List (String × Sentiment)) :
    eventsFirst kw (a ++ b) =
      match eventsFirst kw a with
      | some s => some s
      | none => eventsFirst kw b := by
  induction a with
  | nil => simp [eventsFirst]
  | cons e t ih =>
    by_cases he : e.1 = kw
    · simp [eventsFirst, List.find?_cons_of_pos, he]
    · have h1 : eventsFirst kw ((e :: t) ++ b) = eventsFirst kw (t ++ b) := by
        simp only [List.cons_append, eventsFirst]
        rw [List.find?_cons_of_neg _ (by simpa using he)]
      have h2 : eventsFirst kw (e :: t) = eventsFirst kw t := by
        simp only [eventsFirst]
        rw [List.find?_cons_of_neg _ (by simpa using he)]
      rw [h1, h2, ih]

theorem eventsFirst_eq_none (kw : String) (es : List (String × Sentiment)) :
    eventsFirst kw es = none ↔ eventsCount kw es = 0 := by
  induction es with
  | nil => simp [eventsFirst, eventsCount]
  | cons e t ih =>
    by_cases he : e.1 = kw
    · simp [eventsFirst, eventsCount, List.find?_cons_of_pos, List.filter_cons, he]
    · simp [eventsFirst, eventsCount, List.find?_cons_of_neg, List.filter_cons, he, ih]

theorem kwInv_step (s : Sentiment) (m : List (String × Nat × Sentiment))
    (es : List (String × Sentiment)) (k : String) (h : KwInv m es) :
    KwInv (kwUpsert s m k) (es ++ [(k, s)]) := by
  obtain ⟨hA, hB, hC⟩ := h
  by_cases hk : hasKeyG m k = true
  · rw [kwUpsert, if_pos hk]
    have hfst : ∀ q : String × Nat × Sentiment,
        ((if q.1 = k then (q.1, q.2.1 + 1, q.2.2) else q) : String × Nat × Sentiment).1 = q.1 := by
      intro q
      split <;> rfl
    refine ⟨?_, ?_, ?_⟩
    · intro p hp
      obtain ⟨q, hq, hbump⟩ := List.mem_map.mp hp
      obtain ⟨hc, hf⟩ := hA q hq
      by_cases hqk : q.1 = k
      · have hpq : p = (q.1, q.2.1 + 1, q.2.2) := by rw [← hbump, if_pos hqk]
        subst hpq
        refine ⟨?_, ?_⟩
        · rw [eventsCount_append, eventsCount_singleton, if_pos hqk.symm, ← hc]
        · rw [eventsFirst_append, hf]
      · have hpq : p = q := by rw [← hbump, if_neg hqk]
        subst hpq
        refine ⟨?_, ?_⟩
        · rw [eventsCount_append, eventsCount_singleton,
            if_neg (fun he => hqk he.symm), hc]
          omega
        · rw [eventsFirst_append, hf]
    · intro kw hkw
      have hlift : hasKeyG m kw = true →
          hasKeyG (m.map (fun q => if q.1 = k then (q.1, q.2.1 + 1, q.2.2) else q)) kw = true := by
        intro hh
        obtain ⟨p, hp, hpk⟩ := (hasKeyG_iff m kw).mp hh
        exact (hasKeyG_iff _ kw).mpr
          ⟨_, List.mem_map.mpr ⟨p, hp, rfl⟩, by rw [hfst p]; exact hpk⟩
      by_cases h0 : eventsCount kw es = 0
      · have hkkw : k = kw := by
          by_contra hne
          rw [eventsCount_append, eventsCount_singleton, if_neg hne, h0] at hkw
          exact hkw rfl
        exact hlift (hkkw ▸ hk)
      · exact hlift (hB kw h0)
    · have : (m.map (fun q => if q.1 = k then (q.1, q.2.1 + 1, q.2.2) else q)).map (·.1) =
          m.map (·.1) := by
        rw [List.map_map]
        exact List.map_congr_left (fun q _ => hfst q)
      rw [this]
      exact hC
  · rw [kwUpsert, if_neg hk]
    have hknot : eventsCount k es = 0 := by
      by_contra h0
      exact hk (hB k h0)
    refine ⟨?_, ?_, ?_⟩
    · intro p hp
      rcases List.mem_append.mp hp with hpm | hps
      · have hpk : k ≠ p.1 := by
          intro he
          exact hk ((hasKeyG_iff m k).mpr ⟨p, hpm, he.symm⟩)
        obtain ⟨hc, hf⟩ := hA p hpm
        refine ⟨?_, ?_⟩
        · rw [eventsCount_append, eventsCount_singleton, if_neg hpk, hc]
          omega
        · rw [eventsFirst_append, hf]
      · have hpe : p = (k, 1, s) := by simpa using hps
        subst hpe
        refine ⟨?_, ?_⟩
        · simp [eventsCount_append, eventsCount_singleton, hknot]
        · rw [eventsFirst_append, (eventsFirst_eq_none k es).mpr hknot]
          simp [eventsFirst, List.find?]
    · intro kw hkw
      by_cases h0 : eventsCount kw es = 0
      · have hkkw : k = kw := by
          by_contra hne
          rw [eventsCount_append, eventsCount_singleton, if_neg hne, h0] at hkw
          exact hkw rfl
        subst hkkw
        exact (hasKeyG_iff _ k).mpr ⟨(k, 1, s), List.mem_append_right _ (by simp), rfl⟩
      · obtain ⟨p, hp, hpk⟩ := (hasKeyG_iff m kw).mp (hB kw h0)
        exact (hasKeyG_iff _ kw).mpr ⟨p, List.mem_append_left _ hp, hpk⟩
    · have hnotin : k ∉ m.map (·.1) := by
        intro hin
        obtain ⟨p, hp, hpk⟩ := List.mem_map.mp hin
        exact hk ((hasKeyG_iff m k).mpr ⟨p, hp, hpk⟩)
      simp only [List.map_append, List.map_cons, List.map_nil]
      rw [List.nodup_append]
      exact ⟨hC, List.nodup_singleton _, by simpa [List.disjoint_singleton] using hnotin⟩

theorem kwFold_inv (es0 : List (String × Sentiment)) :
    ∀ (m : List (String × Nat × Sentiment)) (es : List (String × Sentiment)),
      KwInv m es →
      KwInv (es0.foldl (fun m e => kwUpsert e.2 m e.1) m) (es ++ es0) := by
  induction es0 with
  | nil => intro m es h; simpa using h
  | cons e t ih =>
    intro m es h
    have h1 := kwInv_step e.2 m es e.1 h
    have h2 := ih (kwUpsert e.2 m e.1) (es ++ [(e.1, e.2)]) h1
    simpa [List.append_assoc] using h2

theorem buildKeywordCounts_eq_fold (cs : List AnalyzedComment) :
    buildKeywordCounts cs =
      (kwEvents cs).foldl (fun m e => kwUpsert e.2 m e.1) [] := by
  suffices hgen : ∀ (cs : List AnalyzedComment) (m : List (String × Nat × Sentiment)),
      cs.foldl (fun m c => c.keywords.foldl (kwUpsert c.sentiment) m) m =
        (kwEvents cs).foldl (fun m e => kwUpsert e.2 m e.1) m by
    exact hgen cs []
  intro cs
  induction cs with
  | nil => intro m; rfl
  | cons c t ih =>
    intro m
    simp only [List.foldl_cons, kwEvents, List.map_cons, List.flatten_cons,
      List.foldl_append, ih]
    congr 1
    rw [List.foldl_map]

theorem kwInv_build (cs : List AnalyzedComment) :
    KwInv (buildKeywordCounts cs) (kwEvents cs) := by
  rw [buildKeywordCounts_eq_fold]
  have h0 : KwInv [] [] := by
    refine ⟨by simp, ?_, by simp⟩
    intro kw hkw
    exact absurd rfl hkw
  simpa using kwFold_inv (kwEvents cs) [] [] h0

theorem eventsCount_cons (kw : String) (e : String × Sentiment)
    (es : List (String × Sentiment)) :
    eventsCount kw (e :: es) = (if e.1 = kw then 1 else 0) + eventsCount kw es := by
  by_cases h : e.1 = kw
  · simp [eventsCount, List.filter_cons, h]
    omega
  · simp [eventsCount, List.filter_cons, h]

theorem eventsCount_map_const (kw : String) (s : Sentiment) (ks : List String) :
    eventsCount kw (ks.map (fun k => (k, s))) = ks.count kw := by
  induction ks with
  | nil => rfl
  | cons a t ih =>
    rw [List.map_cons, eventsCount_cons, ih, List.count_cons]
    by_cases ha : a = kw
    · simp [ha]
      omega
    · simp [ha]

theorem eventsCount_kwEvents (kw : String) (cs : List AnalyzedComment) :
    eventsCount kw (kwEvents cs) = keywordOccurrences kw cs := by
  induction cs with
  | nil => rfl
  | cons c t ih =>
    simp only [kwEvents, List.map_cons, List.flatten_cons, keywordOccurrences,
      List.sum_cons] at *
    rw [eventsCount_append, ih]
    congr 1
    exact eventsCount_map_const kw c.sentiment c.keywords

theorem eventsFirst_map_const (kw : String) (s : Sentiment) (ks : List String) :
    eventsFirst kw (ks.map (fun k => (k, s))) =
      if ks.contains kw then some s else none := by
  induction ks with
  | nil => rfl
  | cons a t ih =>
    by_cases ha : a = kw
    · have h1 : eventsFirst kw ((a, s) :: t.map (fun k => (k, s))) = some s := by
        simp only [eventsFirst]
        rw [List.find?_cons_of_pos _ (by simpa using ha)]
        rfl
      rw [List.map_cons, h1, if_pos (by simp [ha])]
    · have h1 : eventsFirst kw ((a, s) :: t.map (fun k => (k, s))) =
          eventsFirst kw (t.map (fun k => (k, s))) := by
        simp only [eventsFirst]
        rw [List.find?_cons_of_neg _ (by simpa using ha)]
      rw [List.map_cons, h1, ih]
      by_cases ht : t.contains kw
      · have htm : kw ∈ t := by simpa using ht
        rw [if_pos ht, if_pos (by simp [htm])]
      · have htm : kw ∉ t := by simpa using ht
        have hcond : ¬((a :: t).contains kw = true) := by
          simp [htm]
          exact fun he => ha he.symm
        rw [if_neg ht, if_neg hcond]

theorem eventsFirst_kwEvents (kw : String) (cs : List AnalyzedComment) :
    eventsFirst kw (kwEvents cs) = firstIntroducerSentiment kw cs := by
  induction cs with
  | nil => rfl
  | cons c t ih =>
    have hsplit : kwEvents (c :: t) =
        c.keywords.map (fun k => (k, c.sentiment)) ++ kwEvents t := by
      simp [kwEvents]
    rw [hsplit, eventsFirst_append, eventsFirst_map_const]
    by_cases hc : c.keywords.contains kw
    · have h2 : (c :: t).find? (fun x => x.keywords.contains kw) = some c :=
        List.find?_cons_of_pos _ hc
      rw [if_pos hc, firstIntroducerSentiment, h2]
      rfl
    · have h2 : (c :: t).find? (fun x => x.keywords.contains kw) =
          t.find? (fun x => x.keywords.contains kw) :=
        List.find?_cons_of_neg _ hc
      rw [if_neg hc, firstIntroducerSentiment, h2]
      exact ih

/-- C6 amended: each `topKeywords` entry's count is the TOTAL number of
occurrences of the keyword across all records' keyword lists (a record whose
list repeats a keyword contributes each repetition — not the number of
records containing it); the sentiment is that of the first record that
introduced the keyword; the list is sorted by descending count, has at most
20 entries, and any keyword left out has no larger total count than any
entry kept. -/
theorem topKeywords_characterization (getHours : String → Option Nat)
    (cs : List AnalyzedComment) (h : cs ≠ []) :
    (∀ e ∈ (generateMetrics getHours cs none).topKeywords,
        e.count = keywordOccurrences e.keyword cs ∧
        firstIntroducerSentiment e.keyword cs = some e.sentiment) ∧
    (generateMetrics getHours cs none).topKeywords.length ≤ 20 ∧
    ((generateMetrics getHours cs none).topKeywords).Pairwise
      (fun a b => b.count ≤ a.count) ∧
    (∀ kw, keywordOccurrences kw cs ≠ 0 →
      (∃ e ∈ (generateMetrics getHours cs none).topKeywords, e.keyword = kw) ∨
      (∀ e ∈ (generateMetrics getHours cs none).topKeywords,
        keywordOccurrences kw cs ≤ e.count)) := by
  have hne : ¬(cs.length = 0) := fun hh => h (List.length_eq_zero.mp hh)
  have htk : (generateMetrics getHours cs none).topKeywords =
      ((jsSortBy (fun a b : String × Nat × Sentiment => decide (b.2.1 ≤ a.2.1))
        (buildKeywordCounts cs)).take 20).map
        (fun e => KeywordStat.mk e.1 e.2.1 e.2.2) := by
    simp only [generateMetrics, generateMetricsFull, if_neg hne]
  obtain ⟨hA, hB, hC⟩ := kwInv_build cs
  have hperm := jsSortBy_perm
    (fun a b : String × Nat × Sentiment => decide (b.2.1 ≤ a.2.1))
    (buildKeywordCounts cs)
  have hpair := jsSortBy_pairwise
    (fun a b : String × Nat × Sentiment => decide (b.2.1 ≤ a.2.1))
    (fun x y z hxy hyz => by
      simp only [decide_eq_true_eq] at *
      omega)
    (fun x y => by
      simp only [decide_eq_true_eq]
      omega)
    (buildKeywordCounts cs)
  rw [htk]
  refine ⟨?_, ?_, ?_, ?_⟩
  · intro e he
    obtain ⟨p, hpTake, rfl⟩ := List.mem_map.mp he
    have hpS : p ∈ jsSortBy _ (buildKeywordCounts cs) :=
      (List.take_sublist 20 _).subset hpTake
    have hpB : p ∈ buildKeywordCounts cs := hperm.mem_iff.mp hpS
    obtain ⟨hc, hf⟩ := hA p hpB
    constructor
    · show p.2.1 = keywordOccurrences p.1 cs
      rw [hc, eventsCount_kwEvents]
    · show firstIntroducerSentiment p.1 cs = some p.2.2
      rw [← eventsFirst_kwEvents, hf]
  · rw [List.length_map]
    exact le_trans (List.length_take_le 20 _) (le_refl 20)
  · rw [List.pairwise_map]
    have hsub := List.Pairwise.sublist (List.take_sublist 20 _) hpair
    exact hsub.imp (fun hxy => by
      simpa using of_decide_eq_true hxy)
  · intro kw hkw
    have hev : eventsCount kw (kwEvents cs) ≠ 0 := by
      rw [eventsCount_kwEvents]
      exact hkw
    obtain ⟨p, hpB, hpk⟩ := (hasKeyG_iff _ kw).mp (hB kw hev)
    have hpS : p ∈ jsSortBy
        (fun a b : String × Nat × Sentiment => decide (b.2.1 ≤ a.2.1))
        (buildKeywordCounts cs) := hperm.mem_iff.mpr hpB
    have hocc : keywordOccurrences kw cs = p.2.1 := by
      obtain ⟨hc, _⟩ := hA p hpB
      rw [← eventsCount_kwEvents, ← hpk, ← hc]
    have hsplit := List.take_append_drop 20 (jsSortBy
        (fun a b : String × Nat × Sentiment => decide (b.2.1 ≤ a.2.1))
        (buildKeywordCounts cs))
    rw [← hsplit] at hpS
    rcases List.mem_append.mp hpS with hin | hout
    · exact Or.inl ⟨_, List.mem_map_of_mem _ hin, hpk⟩
    · refine Or.inr ?_
      intro e he
      obtain ⟨q, hqTake, rfl⟩ := List.mem_map.mp he
      have hpair2 : ((jsSortBy
          (fun a b : String × Nat × Sentiment => decide (b.2.1 ≤ a.2.1))
          (buildKeywordCounts cs)).take 20 ++
          (jsSortBy (fun a b : String × Nat × Sentiment => decide (b.2.1 ≤ a.2.1))
          (buildKeywordCounts cs)).drop 20).Pairwise
          (fun x y => decide (y.2.1 ≤ x.2.1) = true) := by
        rw [List.take_append_drop]
        exact hpair
      have hle := (List.pairwise_append.mp hpair2).2.2 q hqTake p hout
      show keywordOccurrences kw cs ≤ q.2.1
      rw [hocc]
      exact of_decide_eq_true hle

/-- The top-keyword table of the one-comment example: the record's keyword
list `["skin", "skincare", "skincare"]` repeats "skincare", and the code
counts the repetition. -/
theorem exampleMetrics_topKeywords :
    (generateMetrics (fun _ => none) [analyzeComment rawCommentEx] none).topKeywords =
      [⟨"skincare", 2, .positive⟩, ⟨"skin", 1, .positive⟩] := by
  have hsent : (analyzeComment rawCommentEx).sentiment = .positive := by
    show (analyzeSentiment "love skincare").sentiment = .positive
    simp only [analyzeSentiment]
    norm_num [(show matchCount sentimentPosStrong (jsToLower "love skincare") = 0 by decide),
      (show matchCount sentimentPosModerate (jsToLower "love skincare") = 1 by decide),
      (show matchCount sentimentPosMild (jsToLower "love skincare") = 0 by decide),
      (show matchCount sentimentNegStrong (jsToLower "love skincare") = 0 by decide),
      (show matchCount sentimentNegModerate (jsToLower "love skincare") = 0 by decide),
      (show matchCount sentimentNegMild (jsToLower "love skincare") = 0 by decide)]
  have hkw : (analyzeComment rawCommentEx).keywords = ["skin", "skincare", "skincare"] := by
    decide
  have htk : (generateMetrics (fun _ => none) [analyzeComment rawCommentEx] none).topKeywords =
      ((jsSortBy (fun a b : String × Nat × Sentiment => decide (b.2.1 ≤ a.2.1))
        (buildKeywordCounts [analyzeComment rawCommentEx])).take 20).map
        (fun e => KeywordStat.mk e.1 e.2.1 e.2.2) := rfl
  have hb : buildKeywordCounts [analyzeComment rawCommentEx] =
      [("skin", 1, .positive), ("skincare", 2, .positive)] := by
    show ((analyzeComment rawCommentEx).keywords).foldl
      (kwUpsert (analyzeComment rawCommentEx).sentiment) [] = _
    rw [hkw, hsent]
    decide
  rw [htk, hb]
  decide

/-- Counterexample to C6 as stated: for the single comment with text
`"love skincare"` the entry for "skincare" reports count 2 although exactly
1 record's keyword list contains it — the code counts occurrences within a
record's list, and `extractKeywords` emitted "skincare" twice (once as a
category keyword, once as a frequent token). -/
theorem topKeywords_count_counterexample :
    (generateMetrics (fun _ => none) [analyzeComment rawCommentEx] none).topKeywords =
      [⟨"skincare", 2, .positive⟩, ⟨"skin", 1, .positive⟩] ∧
    ([analyzeComment rawCommentEx].filter
        (fun c => c.keywords.contains "skincare")).length = 1 :=
  ⟨exampleMetrics_topKeywords, by decide⟩

/-- Witness for C6's amended theorem at the concrete one-comment input. -/
theorem topKeywords_characterization_witness :
    ([analyzeComment rawCommentEx] : List AnalyzedComment) ≠ [] ∧
      (KeywordStat.mk "skincare" 2 .positive).count =
        keywordOccurrences "skincare" [analyzeComment rawCommentEx] := by
  refine ⟨List.cons_ne_nil _ _, ?_⟩
  have hmem : (KeywordStat.mk "skincare" 2 .positive) ∈
      (generateMetrics (fun _ => none) [analyzeComment rawCommentEx] none).topKeywords := by
    rw [exampleMetrics_topKeywords]
    exact List.mem_cons_self _ _
  exact ((topKeywords_characterization (fun _ => none) [analyzeComment rawCommentEx]
    (List.cons_ne_nil _ _)).1 _ hmem).1
